import Mathlib

/-!
Verification of the bulk download orchestration subsystem of the
Ecourts_Scrapper repository (src/services/download_service.py,
src/models/court_models.py, src/scraper/ecourts_scraper.py).

The Python code is shallowly embedded: every filesystem, network and
threading effect is passed in explicitly (an existence predicate for
files, an outcome value for each call that may raise, a completion-order
list for the thread pool), and every Python exception that the code
catches is represented as an explicit error value, so each embedded
function is total exactly where the source function catches at its
boundary.
-/

namespace ECourts

/-- Truthiness of a Python string: the empty string is falsy. -/
def pyTruthyStr (s : String) : Bool := s ≠ ""

/-- Truthiness of an optional Python string: None and the empty string are falsy. -/
def pyTruthy : Option String → Bool
  | some v => v ≠ ""
  | none => false

/-- Rendering of an optional Python string inside an f-string: None prints as the
text None. -/
def pyStr : Option String → String
  | some v => v
  | none => "None"

/-- Python str.replace for a single-character pattern (the only form the
source uses), written over the character list so that it evaluates inside
the kernel. -/
def replaceChar (s : String) (a b : Char) : String :=
  (s.toList.map (fun c => if c = a then b else c)).asString

/-- Python str.strip with no argument: drop whitespace from both ends. -/
def strTrim (s : String) : String :=
  (((s.toList.dropWhile Char.isWhitespace).reverse.dropWhile
      Char.isWhitespace).reverse).asString

/-- Python str.lower. -/
def strToLower (s : String) : String := (s.toList.map Char.toLower).asString

/-- Whether pat occurs as a contiguous sublist of l. -/
def listContains (pat : List Char) : List Char → Bool
  | [] => pat.isEmpty
  | c :: rest => pat.isPrefixOf (c :: rest) || listContains pat rest

/-- Substring test, mirroring the Python membership operator on strings. -/
def strContains (s pat : String) : Bool := listContains pat.toList s.toList

/-- models/court_models.py DownloadResult (the timestamp field, a wall-clock
default, is omitted; no claim mentions it). -/
structure DownloadResult where
  success : Bool
  filename : String
  file_size : Nat
  download_url : String
  error_message : Option String
deriving DecidableEq, Repr

/-- models/court_models.py BulkDownloadResult (timestamp omitted as above). -/
structure BulkDownloadResult where
  success : Bool
  total_files : Nat
  successful_downloads : Nat
  failed_downloads : Nat
  download_results : List DownloadResult
  zip_filename : Option String
  zip_download_url : Option String
deriving DecidableEq, Repr

/-- models/court_models.py BulkDownloadRequest. -/
structure BulkDownloadRequest where
  state_code : String
  district_code : String
  complex_code : String
  date : String
deriving DecidableEq, Repr

/-- models/court_models.py DownloadRequest (court_code is Optional). -/
structure DownloadRequest where
  state_code : String
  district_code : String
  complex_code : String
  court_code : Option String
  date : String
deriving DecidableEq, Repr

/-- One element of the list returned by identify_courts_in_complex: a dict
with the keys code and name (both always present in every dict the scraper
builds). -/
structure Court where
  code : String
  name : String
deriving DecidableEq, Repr

/-- config.py DOWNLOADS_DIR = STATIC_DIR / "downloads", rendered as a string. -/
def downloadsBase : String := "static/downloads"

/-- download_service.py DownloadService.create_download_directory: the
date-specific subdirectory of the base download directory. -/
def create_download_directory (date : String) : String :=
  downloadsBase ++ "/" ++ date

/-- download_service.py DownloadService.generate_filename (the inner
try-block; its except clause is unreachable because no string operation in
the body raises). -/
def generate_filename (court_name : String) (date : String)
    (court_code : Option String) : String :=
  let kept := court_name.toList.filter
    (fun c => c.isAlphanum || c = ' ' || c = '-' || c = '_')
  let stripped := strTrim kept.asString
  let replaced := replaceChar (replaceChar stripped ' ' '_') '-' '_'
  let clean :=
    if replaced.toList.length > 50 then (replaced.toList.take 50).asString
    else replaced
  let date_str := replaceChar date '-' '_'
  if pyTruthy court_code then
    clean ++ "_" ++ (court_code.getD "") ++ "_" ++ date_str ++ ".pdf"
  else
    clean ++ "_" ++ date_str ++ ".pdf"

/-- download_service.py DownloadService.create_zip_archive.
zipWritten is the filesystem outcome of writing the archive: an error value
when any step inside the try raises (the except clause returns None), and
otherwise the pair of whether the zip file exists afterwards and its byte
size. The body stores each existing input file by base name and skips
missing ones; neither affects the returned location beyond the final
exists-and-non-empty check, which the outcome pair carries. -/
def create_zip_archive (zipWritten : Except String (Bool × Nat))
    (file_paths : List String) (zip_filename : String)
    (zip_directory : String) : Option String :=
  if file_paths.isEmpty then none
  else
    match zipWritten with
    | .error _ => none
    | .ok (zexists, zsize) =>
      if zexists && zsize > 0 then some (zip_directory ++ "/" ++ zip_filename)
      else none

/-- The synthetic failed result built at the dispatch boundary of
download_bulk_cause_lists when future.result() raises (lines 403-414):
filename error_{code}_{date with dash replaced by underscore}.pdf, size 0,
the static error URL, and the fault message. The code key is always present
in a court dict, so the .get default unknown never applies. -/
def errorResult (c : Court) (date : String) (e : String) : DownloadResult :=
  { success := false
    filename := "error_" ++ c.code ++ "_" ++ replaceChar date '-' '_' ++ ".pdf"
    file_size := 0
    download_url := "/static/downloads/error.pdf"
    error_message := some e }

/-- The harvesting loop of download_bulk_cause_lists (for future in
as_completed(...)): one pass over the futures in completion order,
appending one DownloadResult per future to download_results and, for a
successful result whose file exists under the download directory, its path
to successful_files. outcome c is what future.result() returns or raises
for the future of court c; fileExists is the filesystem at collection time.
The progress callback is modelled as non-raising (its only in-repo
instance forwards to the progress tracker). -/
def bulkLoop (download_dir : String) (date : String)
    (fileExists : String → Bool)
    (outcome : Court → Except String DownloadResult) :
    List Court → List DownloadResult × List String
  | [] => ([], [])
  | c :: rest =>
    let tail := bulkLoop download_dir date fileExists outcome rest
    match outcome c with
    | .ok r =>
      (r :: tail.1,
       if r.success && fileExists (download_dir ++ "/" ++ r.filename) then
         (download_dir ++ "/" ++ r.filename) :: tail.2
       else tail.2)
    | .error e => (errorResult c date e :: tail.1, tail.2)

/-- The court_code validator of DownloadRequest (models/court_models.py
lines 60-66): a provided code passes iff, as a string, it is still truthy
after strip. The bulk submission loop builds one DownloadRequest per
discovered court (download_service.py lines 372-378) in the parent
thread, so a discovered court whose code fails this check raises pydantic
ValidationError there; discovery can produce such courts, since the JSON
branch of the scraper fills the code key with an empty-string default. -/
def courtCodeValid (c : Court) : Bool := pyTruthyStr (strTrim c.code)

/-- download_service.py DownloadService.download_bulk_cause_lists.
courts is what identify_courts_in_complex returned; completionOrder is the
order in which the pool futures complete (a permutation of courts);
outcome, fileExists and zipWritten are the per-future, collection-time
filesystem and archive-write effects. The zip download URL derivation
(relative_to the parent of the base directory) is modelled as prefixing a
slash to the path. If some discovered court has a blank code, the
DownloadRequest construction inside the submission loop raises
ValidationError; the exception propagates past the pool to the outer
except clause (lines 448-458), which returns the all-zero result — the
second guard below models that abort. Every other exception point of the
body is one of the caught parameters. -/
def download_bulk_cause_lists (request : BulkDownloadRequest)
    (courts : List Court) (completionOrder : List Court)
    (outcome : Court → Except String DownloadResult)
    (fileExists : String → Bool)
    (zipWritten : Except String (Bool × Nat)) : BulkDownloadResult :=
  if courts.isEmpty then
    { success := false, total_files := 0, successful_downloads := 0
      failed_downloads := 0, download_results := [], zip_filename := none
      zip_download_url := none }
  else if courts.any (fun c => !(courtCodeValid c)) then
    { success := false, total_files := 0, successful_downloads := 0
      failed_downloads := 0, download_results := [], zip_filename := none
      zip_download_url := none }
  else
    let total_courts := courts.length
    let download_dir := create_download_directory request.date
    let looped := bulkLoop download_dir request.date fileExists outcome completionOrder
    let download_results := looped.1
    let successful_files := looped.2
    let successful_downloads :=
      (download_results.filter (fun r => r.success)).length
    let failed_downloads := total_courts - successful_downloads
    let zipName := "bulk_download_" ++ request.complex_code ++ "_" ++
      replaceChar request.date '-' '_' ++ ".zip"
    let zip_filename := if successful_files.isEmpty then none else some zipName
    let zipPath :=
      if successful_files.isEmpty then none
      else create_zip_archive zipWritten successful_files zipName download_dir
    let zip_download_url := zipPath.map (fun p => "/" ++ p)
    { success := decide (0 < successful_downloads)
      total_files := total_courts
      successful_downloads := successful_downloads
      failed_downloads := failed_downloads
      download_results := download_results
      zip_filename := zip_filename
      zip_download_url := zip_download_url }

/-- Whether download_bulk_cause_lists reaches the create_zip_archive call:
the guard if successful_files after the loop, which is never reached when
the court list is empty or when a blank discovered code aborts the run at
the submission loop. -/
def bulkArchiveAttempted (request : BulkDownloadRequest)
    (courts : List Court) (completionOrder : List Court)
    (outcome : Court → Except String DownloadResult)
    (fileExists : String → Bool) : Bool :=
  if courts.isEmpty then false
  else if courts.any (fun c => !(courtCodeValid c)) then false
  else
    !(bulkLoop (create_download_directory request.date) request.date
        fileExists outcome completionOrder).2.isEmpty

/-- The result dictionary built by the scraper download methods in
scraper/ecourts_scraper.py: keys success, filename, filepath, file_size,
error_message. Every dictionary these methods build contains all five
keys, so a .get on error_message reads the stored value (possibly None)
and its default never applies. -/
structure ScraperResult where
  success : Bool
  filename : String
  filepath : Option String
  file_size : Nat
  error_message : Option String
deriving DecidableEq, Repr

/-- Modelled from the spec: the outcome of
utils.pdf_generator.create_mock_cause_list_pdf, repository code that is
not under src/ (only its import and call sites are). Per the spec, the
fetcher side produces a pass/fail result with file metadata or an error
message, so a failing outcome carries its message. -/
inductive MockPdfOutcome
  | ok (filepath : String) (file_size : Nat)
  | fail (msg : String)
deriving DecidableEq, Repr

/-- An HTTP response from _make_request, reduced to the fields the scraper
reads: the lower-cased content-type header and the page text. -/
structure HttpResponse where
  content_type : String
  page_text : String
deriving DecidableEq, Repr

/-- The environment of one scraper download call: every collaborator value
and every exception point of scraper/ecourts_scraper.py, passed in
explicitly. A some value in an exc field means that step raised with that
message; none means it did not raise. -/
structure ScraperEnv where
  /-- settings.mock_mode from config.py -/
  mock_mode : Bool
  /-- what get_cause_list_url returned (portal scraping is an external
  collaborator per the spec) -/
  pdf_url : Option String
  /-- the response of _make_request, or none when the request failed -/
  response : Option HttpResponse
  /-- whether the streamed file exists with positive size after writing -/
  written_ok : Bool
  /-- total bytes streamed into the file -/
  written_size : Nat
  /-- whether utils.pdf_generator imported successfully -/
  pdf_generator_available : Bool
  /-- outcome of the external mock-PDF generator call -/
  mock_pdf : MockPdfOutcome
  /-- exception inside the try of _create_mock_pdf, if any -/
  mock_exc : Option String
  /-- exception inside the try of _create_basic_mock_pdf, if any -/
  basic_exc : Option String
  /-- byte length of the basic mock content that was written -/
  basic_size : Nat
  /-- exception inside the try of download_cause_list, if any -/
  dl_exc : Option String
  /-- exception inside the outer try of
  download_cause_list_by_court_and_date, if any -/
  top_exc : Option String
  /-- exception while building the mock PDF inside the top-level handler -/
  top_mock_exc : Option String
  /-- datetime.now() formatted Y_m_d, used when the date argument is empty -/
  now_date : String
  /-- datetime.now() formatted as a timestamp for fallback filenames -/
  now_stamp : String

/-- scraper/ecourts_scraper.py ECourtsScraper._create_basic_mock_pdf. -/
def create_basic_mock_pdf (env : ScraperEnv) (filepath filename : String) :
    ScraperResult :=
  match env.basic_exc with
  | some e =>
    { success := false, filename := filename, filepath := none
      file_size := 0
      error_message := some ("Error creating basic mock PDF: " ++ e) }
  | none =>
    { success := true, filename := filename, filepath := some filepath
      file_size := env.basic_size, error_message := none }

/-- scraper/ecourts_scraper.py ECourtsScraper._create_mock_pdf: delegates
to the external generator when available, otherwise to the basic writer;
its own except clause turns a raise into a failed dictionary. -/
def create_mock_pdf (env : ScraperEnv) (filepath filename : String) :
    ScraperResult :=
  match env.mock_exc with
  | some e =>
    { success := false, filename := filename, filepath := none
      file_size := 0
      error_message := some ("Error creating mock PDF: " ++ e) }
  | none =>
    if env.pdf_generator_available then
      match env.mock_pdf with
      | .ok fp n =>
        { success := true, filename := filename, filepath := some fp
          file_size := n, error_message := none }
      | .fail m =>
        { success := false, filename := filename, filepath := none
          file_size := 0, error_message := some m }
    else create_basic_mock_pdf env filepath filename

/-- scraper/ecourts_scraper.py ECourtsScraper.download_cause_list.
In the content-type mismatch branch the three messages stored before the
mock_mode test are dead stores: the mock branch discards the result
dictionary and the non-mock branch overwrites the message before
returning, so only the final message is modelled. -/
def download_cause_list (env : ScraperEnv) (url : String)
    (filename : String) (download_dir : String) : ScraperResult :=
  let safe_filename :=
    if pyTruthyStr filename && pyTruthyStr (strTrim filename) then filename
    else "download_" ++ env.now_stamp ++ ".pdf"
  let base : ScraperResult :=
    { success := false, filename := safe_filename, filepath := none
      file_size := 0, error_message := none }
  match env.dl_exc with
  | some e =>
    { base with error_message := some ("Error downloading PDF: " ++ e) }
  | none =>
    if !(pyTruthyStr url) then
      { base with error_message := some "URL is required" }
    else if !(pyTruthyStr filename) || !(pyTruthyStr (strTrim filename)) then
      { base with error_message := some "Filename is required" }
    else
      let filepath := download_dir ++ "/" ++ filename
      match env.response with
      | none =>
        if env.mock_mode then create_mock_pdf env filepath filename
        else
          { base with error_message := some "eCourts portal is not accessible and mock mode is disabled" }
      | some resp =>
        let content_type := strToLower resp.content_type
        if !(strContains content_type "pdf") &&
           !(strContains content_type "application/octet-stream") then
          if env.mock_mode then create_mock_pdf env filepath filename
          else
            { base with error_message := some ("eCourts returned unexpected content type: " ++ content_type) }
        else
          if env.written_ok then
            { base with success := true, filepath := some filepath, file_size := env.written_size }
          else
            { base with error_message := some "Downloaded file is empty or was not created" }

/-- The filename cleaning inside
download_cause_list_by_court_and_date: keep alphanumerics, space, dash
and underscore, strip, then replace spaces by underscores. -/
def scraperCleanName (s : String) : String :=
  replaceChar
    (strTrim (s.toList.filter
      (fun c => c.isAlphanum || c = ' ' || c = '-' || c = '_')).asString)
    ' ' '_'

/-- scraper/ecourts_scraper.py
ECourtsScraper.download_cause_list_by_court_and_date. -/
def download_cause_list_by_court_and_date (env : ScraperEnv)
    (court_code : Option String) (date : String)
    (court_name : Option String) : ScraperResult :=
  let date_str :=
    if pyTruthyStr date then replaceChar date '-' '_' else env.now_date
  let safe_court_code :=
    if pyTruthy court_code && pyTruthyStr (strTrim (court_code.getD "")) then
      court_code.getD ""
    else "unknown"
  let code_filename := "court_" ++ safe_court_code ++ "_" ++ date_str ++ ".pdf"
  let filename :=
    if pyTruthy court_name && pyTruthyStr (strTrim (court_name.getD "")) then
      let clean := scraperCleanName (court_name.getD "")
      if pyTruthyStr clean then clean ++ "_" ++ date_str ++ ".pdf"
      else code_filename
    else code_filename
  match env.top_exc with
  | some e =>
    let fallback_filename := code_filename
    if env.mock_mode then
      match env.top_mock_exc with
      | some _ =>
        { success := false, filename := fallback_filename, filepath := none
          file_size := 0
          error_message := some ("Error in download process: " ++ e) }
      | none =>
        create_mock_pdf env ("static/downloads" ++ "/" ++ fallback_filename)
          fallback_filename
    else
      { success := false, filename := fallback_filename, filepath := none
        file_size := 0
        error_message := some ("eCourts portal error: " ++ e ++ ". Real API access required.") }
  | none =>
    if !(pyTruthy env.pdf_url) then
      if env.mock_mode then
        create_mock_pdf env ("static/downloads" ++ "/" ++ filename) filename
      else
        { success := false, filename := filename, filepath := none
          file_size := 0
          error_message := some "eCourts portal is not accessible. Real API access required." }
    else
      download_cause_list env (env.pdf_url.getD "") filename "static/downloads"

/-- download_service.py DownloadService.download_single_cause_list.
fsMove is the outcome of the success-path file operations (Path on the
returned filepath, shutil.move into the organized structure, relative_to
for the URL): an error there is caught by the except clause of the
method, which builds the fallback failed result. The relative URL of the
saved file resolves to /downloads/{date}/{filename} under the default
base directory. The scraper dictionary always carries the error_message
key, so the .get default never applies and the stored value (possibly
None) is copied. The embedding is total: every exception point of the
source method is a caught parameter, so a DownloadResult is returned on
every input. -/
def download_single_cause_list (request : DownloadRequest)
    (env : ScraperEnv) (fsMove : Except String Unit) : DownloadResult :=
  let court_name := "Court_" ++ pyStr request.court_code
  let filename := generate_filename court_name request.date request.court_code
  let dr := download_cause_list_by_court_and_date env request.court_code
    request.date (some court_name)
  if dr.success then
    match fsMove with
    | .ok _ =>
      { success := true, filename := filename, file_size := dr.file_size
        download_url := "/downloads/" ++ request.date ++ "/" ++ filename
        error_message := none }
    | .error e =>
      { success := false
        filename := "error_" ++ env.now_stamp ++ ".pdf"
        file_size := 0
        download_url := "/static/downloads/error.pdf"
        error_message := some ("Download service error: " ++ e) }
  else
    let safe_filename :=
      if pyTruthyStr filename && pyTruthyStr (strTrim filename) then filename
      else "failed_download.pdf"
    { success := false, filename := safe_filename, file_size := 0
      download_url := "/static/downloads/not_available.pdf"
      error_message := dr.error_message }

/-- download_service.py ProgressTracker counters (start_time, the wall
clock and the callback list are omitted: elapsed and estimated times are
wall-clock readings and the callbacks do not feed back into the
counters). -/
structure ProgressTracker where
  total_items : Nat
  completed_items : Nat
  successful_items : Nat
  failed_items : Nat
  current_item : Option String
deriving DecidableEq, Repr

/-- ProgressTracker.__init__. -/
def mkProgressTracker (total_items : Nat) : ProgressTracker :=
  { total_items := total_items, completed_items := 0, successful_items := 0
    failed_items := 0, current_item := none }

/-- ProgressTracker.is_complete: completed_items >= total_items. -/
def ProgressTracker.is_complete (t : ProgressTracker) : Bool :=
  t.completed_items ≥ t.total_items

/-- ProgressTracker.update_progress: increments the counters, then
computes progress_percent as completed_items / total_items * 100 with no
guard on total_items, so a zero-total tracker raises ZeroDivisionError at
that line (after the counters were already mutated); the Except value
carries the mutated tracker and the computed percentage. Wall-clock
fields and callback invocation are omitted as in the structure. -/
def update_progress (t : ProgressTracker) (item_name : String)
    (success : Bool) : Except String (ProgressTracker × ℚ) :=
  let t2 : ProgressTracker :=
    { t with completed_items := t.completed_items + 1, current_item := some item_name, successful_items := t.successful_items + (if success then 1 else 0), failed_items := t.failed_items + (if success then 0 else 1) }
  if t.total_items = 0 then .error "ZeroDivisionError"
  else .ok (t2, ((t2.completed_items : ℚ) / (t.total_items : ℚ)) * 100)

/-- The status tags of a BulkDownloadManager session. -/
inductive SessionStatus
  | starting
  | running
  | completed
  | error
  | cancelled
deriving DecidableEq, Repr

/-- Whether a status tag is terminal: the three tags listed in
cleanup_completed_sessions. -/
def SessionStatus.isTerminal : SessionStatus → Bool
  | .completed => true
  | .error => true
  | .cancelled => true
  | _ => false

/-- One entry of BulkDownloadManager.active_downloads (the request, the
tracker and the court list are carried by the real dict but never guard a
status transition; start_time drives cleanup). terminal_time is a ghost
timestamp recording when the status last became terminal: no operation of
the code reads it, it exists only so that claims about terminal-state age
can be stated. -/
structure Session where
  status : SessionStatus
  start_time : Int
  terminal_time : Option Int
  results : Option BulkDownloadResult
  error_str : Option String
deriving DecidableEq, Repr

/-- The session registry: session id to session entry. -/
abbrev MgrState := String → Option Session

/-- Update the entry for one id, if present (a write through
active_downloads[session_id] on an absent key raises KeyError, which
escapes the writer and leaves the registry unchanged). -/
def setSession (m : MgrState) (id : String) (f : Session → Session) :
    MgrState :=
  fun x => if x = id then (m x).map f else m x

/-- BulkDownloadManager.start_bulk_download registry effect: insert a
fresh session in the starting state (uuid4 ids make overwriting an
existing entry practically impossible, but the dict write is an insert
regardless). -/
def start_bulk_download (m : MgrState) (id : String) (t : Int) : MgrState :=
  fun x =>
    if x = id then
      some { status := .starting, start_time := t, terminal_time := none, results := none, error_str := none }
    else m x

/-- The first write of the background thread body: status becomes
running, unconditionally. -/
def jobRunWrite (m : MgrState) (id : String) : MgrState :=
  setSession m id (fun s => { s with status := .running })

/-- The completion write of the background thread body: stores the
results and sets status to completed, unconditionally (no check of the
current tag). t is the ghost time of the write. -/
def jobCompleteWrite (m : MgrState) (id : String) (r : BulkDownloadResult)
    (t : Int) : MgrState :=
  setSession m id
    (fun s => { s with results := some r, status := .completed, terminal_time := some t })

/-- The except-clause write of the background thread body: stores the
message and sets status to error, unconditionally. -/
def jobErrorWrite (m : MgrState) (id : String) (e : String) (t : Int) :
    MgrState :=
  setSession m id
    (fun s => { s with error_str := some e, status := .error, terminal_time := some t })

/-- BulkDownloadManager.cancel_download: False for an unknown id,
otherwise sets status to cancelled (regardless of the current tag) and
returns True. -/
def cancel_download (m : MgrState) (id : String) (t : Int) :
    MgrState × Bool :=
  if (m id).isSome then
    (setSession m id (fun s => { s with status := .cancelled, terminal_time := some t }), true)
  else (m, false)

/-- BulkDownloadManager.cleanup_completed_sessions: removes the sessions
whose status is completed, error or cancelled and whose start_time lies
before now minus max_age_hours; every other session is kept. Times are in
hours. -/
def cleanup_completed_sessions (m : MgrState) (max_age_hours now : Int) :
    MgrState :=
  fun x =>
    match m x with
    | some s =>
      if s.status.isTerminal ∧ s.start_time < now - max_age_hours then none
      else some s
    | none => none

/-- The registry-mutating and registry-reading operations of
BulkDownloadManager (get_download_status and get_active_sessions read
without writing). -/
inductive MgrOp
  | start (id : String) (t : Int)
  | jobRun (id : String)
  | jobComplete (id : String) (r : BulkDownloadResult) (t : Int)
  | jobError (id : String) (e : String) (t : Int)
  | cancel (id : String) (t : Int)
  | cleanup (max_age_hours : Int) (now : Int)
  | getStatus (id : String)
  | listActive

/-- The registry after one manager operation. -/
def applyOp (m : MgrState) : MgrOp → MgrState
  | .start id t => start_bulk_download m id t
  | .jobRun id => jobRunWrite m id
  | .jobComplete id r t => jobCompleteWrite m id r t
  | .jobError id e t => jobErrorWrite m id e t
  | .cancel id t => (cancel_download m id t).1
  | .cleanup a now => cleanup_completed_sessions m a now
  | .getStatus _ => m
  | .listActive => m

/-- Whether an operation is one of the unconditional status writes
aimed at the given session id. -/
def MgrOp.writesStatus : MgrOp → String → Bool
  | .start i _, id => i == id
  | .jobRun i, id => i == id
  | .jobComplete i _ _, id => i == id
  | .jobError i _ _, id => i == id
  | .cancel i _, id => i == id
  | .cleanup _ _, _ => false
  | .getStatus _, _ => false
  | .listActive, _ => false

/-! ### Helper lemmas -/

theorem append_ne_empty_left (a b : String) (ha : a ≠ "") : a ++ b ≠ "" := by
  intro hab
  apply ha
  have hlen := congrArg String.length hab
  rw [String.length_append] at hlen
  have ha0 : a.length = 0 := by
    have hz : a.length + b.length = 0 := by simpa using hlen
    omega
  cases a with
  | mk data =>
    cases data with
    | nil => rfl
    | cons c cs => simp [String.length] at ha0

/-- The per-future step of the harvesting loop: the one DownloadResult
recorded for a court, whether its future returned or raised. -/
def harvestStep (date : String)
    (outcome : Court → Except String DownloadResult) (c : Court) :
    DownloadResult :=
  match outcome c with
  | .ok r => r
  | .error e => errorResult c date e

theorem bulkLoop_fst_eq_map (download_dir date : String)
    (fileExists : String → Bool)
    (outcome : Court → Except String DownloadResult) (l : List Court) :
    (bulkLoop download_dir date fileExists outcome l).1 =
      l.map (harvestStep date outcome) := by
  induction l with
  | nil => rfl
  | cons c rest ih =>
    simp only [bulkLoop, List.map, harvestStep]
    cases outcome c <;> simp [ih]

theorem bulkLoop_fst_length (download_dir date : String)
    (fileExists : String → Bool)
    (outcome : Court → Except String DownloadResult) (l : List Court) :
    (bulkLoop download_dir date fileExists outcome l).1.length = l.length := by
  rw [bulkLoop_fst_eq_map, List.length_map]

theorem length_filter_cons_le {α : Type} (p : α → Bool) (a : α) (l : List α) :
    (l.filter p).length ≤ ((a :: l).filter p).length := by
  by_cases h : p a <;> simp [List.filter, h]

theorem bulkLoop_files_success (download_dir date : String)
    (fileExists : String → Bool)
    (outcome : Court → Except String DownloadResult) (l : List Court)
    (hne : (bulkLoop download_dir date fileExists outcome l).2 ≠ []) :
    0 < ((bulkLoop download_dir date fileExists outcome l).1.filter
          (fun r => r.success)).length := by
  induction l with
  | nil => simp [bulkLoop] at hne
  | cons c rest ih =>
    simp only [bulkLoop] at hne ⊢
    cases hoc : outcome c with
    | ok r =>
      simp only [hoc] at hne ⊢
      by_cases hs : r.success && fileExists (download_dir ++ "/" ++ r.filename)
      · have hrs : r.success = true := by
          simp only [Bool.and_eq_true] at hs
          exact hs.1
        simp [List.filter, hrs]
      · simp only [if_neg hs] at hne
        have := ih hne
        calc 0 < _ := this
          _ ≤ _ := length_filter_cons_le (fun r => r.success) r _
    | error e =>
      simp only [hoc] at hne ⊢
      have := ih hne
      calc 0 < _ := this
        _ ≤ _ := length_filter_cons_le (fun r => r.success) (errorResult c date e) _

theorem bulk_not_empty (request : BulkDownloadRequest)
    (courts completionOrder : List Court)
    (outcome : Court → Except String DownloadResult)
    (fileExists : String → Bool) (zipWritten : Except String (Bool × Nat))
    (hc : courts.isEmpty = false)
    (hv : courts.any (fun c => !(courtCodeValid c)) = false) :
    download_bulk_cause_lists request courts completionOrder outcome
        fileExists zipWritten =
      { success := decide (0 < ((bulkLoop (create_download_directory request.date) request.date fileExists outcome completionOrder).1.filter (fun r => r.success)).length), total_files := courts.length, successful_downloads := ((bulkLoop (create_download_directory request.date) request.date fileExists outcome completionOrder).1.filter (fun r => r.success)).length, failed_downloads := courts.length - ((bulkLoop (create_download_directory request.date) request.date fileExists outcome completionOrder).1.filter (fun r => r.success)).length, download_results := (bulkLoop (create_download_directory request.date) request.date fileExists outcome completionOrder).1, zip_filename := if (bulkLoop (create_download_directory request.date) request.date fileExists outcome completionOrder).2.isEmpty then none else some ("bulk_download_" ++ request.complex_code ++ "_" ++ replaceChar request.date '-' '_' ++ ".zip"), zip_download_url := (if (bulkLoop (create_download_directory request.date) request.date fileExists outcome completionOrder).2.isEmpty then none else create_zip_archive zipWritten (bulkLoop (create_download_directory request.date) request.date fileExists outcome completionOrder).2 ("bulk_download_" ++ request.complex_code ++ "_" ++ replaceChar request.date '-' '_' ++ ".zip") (create_download_directory request.date)).map (fun p => "/" ++ p) } := by
  simp only [download_bulk_cause_lists]
  rw [if_neg (by simp [hc]), if_neg (by simp [hv])]

theorem bulk_invalid_code (request : BulkDownloadRequest)
    (courts completionOrder : List Court)
    (outcome : Court → Except String DownloadResult)
    (fileExists : String → Bool) (zipWritten : Except String (Bool × Nat))
    (hv : courts.any (fun c => !(courtCodeValid c)) = true) :
    download_bulk_cause_lists request courts completionOrder outcome
        fileExists zipWritten =
      { success := false, total_files := 0, successful_downloads := 0, failed_downloads := 0, download_results := [], zip_filename := none, zip_download_url := none } := by
  have hc : courts.isEmpty = false := by
    cases courts with
    | nil => simp at hv
    | cons a l => rfl
  simp only [download_bulk_cause_lists]
  rw [if_neg (by simp [hc]), if_pos hv]

/-! ### C1: per-unit fault containment in the bulk loop -/

/-- C1: in a bulk run, when the dispatched single-item download for some
unit raises at the dispatch boundary, the batch does not abort: the
result list still has exactly one entry per discovered work unit, and the
entry recorded for the faulting unit is the synthetic failed result whose
filename is error_ followed by the court code and the date with dashes
replaced by underscores, and whose error_message is the fault message.
The hypothesis that every discovered code passes the DownloadRequest
validator expresses that the run reached the harvesting loop: in the
source, observing a fault at future.result() presupposes that every
submission already succeeded. -/
theorem c1_fault_contained (request : BulkDownloadRequest)
    (courts completionOrder : List Court)
    (outcome : Court → Except String DownloadResult)
    (fileExists : String → Bool) (zipWritten : Except String (Bool × Nat))
    (hperm : completionOrder.Perm courts)
    (hvalid : courts.any (fun c => !(courtCodeValid c)) = false)
    (i : Nat) (c : Court) (e : String)
    (hc : completionOrder[i]? = some c) (he : outcome c = .error e) :
    (download_bulk_cause_lists request courts completionOrder outcome
        fileExists zipWritten).download_results.length = courts.length ∧
    (download_bulk_cause_lists request courts completionOrder outcome
        fileExists zipWritten).download_results[i]? =
      some { success := false, filename := "error_" ++ c.code ++ "_" ++ replaceChar request.date '-' '_' ++ ".pdf", file_size := 0, download_url := "/static/downloads/error.pdf", error_message := some e } := by
  have hcourts : courts.isEmpty = false := by
    cases hb : courts.isEmpty with
    | false => rfl
    | true =>
      have hnil : courts = [] := List.isEmpty_iff.mp hb
      subst hnil
      have : completionOrder = [] := hperm.eq_nil
      subst this
      simp at hc
  rw [bulk_not_empty request courts completionOrder outcome fileExists
    zipWritten hcourts hvalid]
  dsimp only
  constructor
  · rw [bulkLoop_fst_length]
    exact hperm.length_eq
  · rw [bulkLoop_fst_eq_map, List.getElem?_map, hc]
    simp [harvestStep, he, errorResult]

/-- Witness for C1: the spec scenario of three units where the fetch of
unit 2 raises; the final list has three entries and entry 1 is the
synthetic failed result. -/
theorem c1_witness :
    (download_bulk_cause_lists ⟨"S1", "D1", "CPX", "2024-01-05"⟩
        [⟨"101", "Court A"⟩, ⟨"102", "Court B"⟩, ⟨"103", "Court C"⟩]
        [⟨"101", "Court A"⟩, ⟨"102", "Court B"⟩, ⟨"103", "Court C"⟩]
        (fun c => if c.code = "102" then .error "boom" else .ok ⟨true, "ok.pdf", 9, "/downloads/2024-01-05/ok.pdf", none⟩)
        (fun _ => true) (.ok (true, 50))).download_results.length = 3 ∧
    (download_bulk_cause_lists ⟨"S1", "D1", "CPX", "2024-01-05"⟩
        [⟨"101", "Court A"⟩, ⟨"102", "Court B"⟩, ⟨"103", "Court C"⟩]
        [⟨"101", "Court A"⟩, ⟨"102", "Court B"⟩, ⟨"103", "Court C"⟩]
        (fun c => if c.code = "102" then .error "boom" else .ok ⟨true, "ok.pdf", 9, "/downloads/2024-01-05/ok.pdf", none⟩)
        (fun _ => true) (.ok (true, 50))).download_results[1]? =
      some { success := false, filename := "error_102_2024_01_05.pdf", file_size := 0, download_url := "/static/downloads/error.pdf", error_message := some "boom" } := by
  have h := c1_fault_contained ⟨"S1", "D1", "CPX", "2024-01-05"⟩
    [⟨"101", "Court A"⟩, ⟨"102", "Court B"⟩, ⟨"103", "Court C"⟩]
    [⟨"101", "Court A"⟩, ⟨"102", "Court B"⟩, ⟨"103", "Court C"⟩]
    (fun c => if c.code = "102" then .error "boom" else .ok ⟨true, "ok.pdf", 9, "/downloads/2024-01-05/ok.pdf", none⟩)
    (fun _ => true) (.ok (true, 50)) (List.Perm.refl _) (by decide) 1
    ⟨"102", "Court B"⟩ "boom" (by rfl) (by rfl)
  refine ⟨h.1, ?_⟩
  rw [h.2]
  decide

/-! ### C2: counting invariant of a completed bulk run -/

/-- C2 counterexample: a bulk run that discovers exactly one unit whose
court code is blank aborts at the per-court DownloadRequest construction
(the court_code validator raises) and returns the all-zero result, so
total_files and the result-list length are 0 while N is 1 — refuting
that every completed run over N discovered units has total_files == N
and len(download_results) == N. -/
theorem c2_counterexample :
    (download_bulk_cause_lists ⟨"S1", "D1", "CPX", "2024-01-05"⟩
        [⟨"", "Unnamed Court"⟩] [⟨"", "Unnamed Court"⟩]
        (fun _ => .ok ⟨true, "a.pdf", 9, "/downloads/2024-01-05/a.pdf", none⟩)
        (fun _ => true) (.ok (true, 50))).total_files = 0 ∧
    (download_bulk_cause_lists ⟨"S1", "D1", "CPX", "2024-01-05"⟩
        [⟨"", "Unnamed Court"⟩] [⟨"", "Unnamed Court"⟩]
        (fun _ => .ok ⟨true, "a.pdf", 9, "/downloads/2024-01-05/a.pdf", none⟩)
        (fun _ => true) (.ok (true, 50))).download_results.length = 0 ∧
    ([(⟨"", "Unnamed Court"⟩ : Court)] : List Court).length = 1 := by
  decide

/-- C2 amended: for a completed bulk run over N discovered units all of
whose court codes pass the DownloadRequest validator,
successful_downloads plus failed_downloads equals total_files,
total_files equals N and download_results has exactly N entries; when
some discovered code is blank, the per-court DownloadRequest
construction raises ValidationError and the run aborts to the outer
except clause, returning the all-zero result (total_files 0 and an
empty list rather than N, though the sum invariant still holds there
trivially). -/
theorem c2_count_invariant :
    (∀ (request : BulkDownloadRequest) (courts completionOrder : List Court)
      (outcome : Court → Except String DownloadResult)
      (fileExists : String → Bool) (zipWritten : Except String (Bool × Nat)),
      completionOrder.Perm courts →
      courts.any (fun c => !(courtCodeValid c)) = false →
      (download_bulk_cause_lists request courts completionOrder outcome
          fileExists zipWritten).successful_downloads +
        (download_bulk_cause_lists request courts completionOrder outcome
          fileExists zipWritten).failed_downloads =
        (download_bulk_cause_lists request courts completionOrder outcome
          fileExists zipWritten).total_files ∧
      (download_bulk_cause_lists request courts completionOrder outcome
          fileExists zipWritten).total_files = courts.length ∧
      (download_bulk_cause_lists request courts completionOrder outcome
          fileExists zipWritten).download_results.length = courts.length) ∧
    (∀ (request : BulkDownloadRequest) (courts completionOrder : List Court)
      (outcome : Court → Except String DownloadResult)
      (fileExists : String → Bool) (zipWritten : Except String (Bool × Nat)),
      courts.any (fun c => !(courtCodeValid c)) = true →
      download_bulk_cause_lists request courts completionOrder outcome
          fileExists zipWritten =
        { success := false, total_files := 0, successful_downloads := 0, failed_downloads := 0, download_results := [], zip_filename := none, zip_download_url := none }) := by
  constructor
  · intro request courts completionOrder outcome fileExists zipWritten
      hperm hvalid
    by_cases hc : courts.isEmpty
    · have hnil : courts = [] := List.isEmpty_iff.mp hc
      subst hnil
      simp [download_bulk_cause_lists]
    · have hcf : courts.isEmpty = false := by simpa using hc
      rw [bulk_not_empty request courts completionOrder outcome fileExists
        zipWritten hcf hvalid]
      dsimp only
      have hlen : (bulkLoop (create_download_directory request.date)
          request.date fileExists outcome completionOrder).1.length =
          courts.length := by
        rw [bulkLoop_fst_length]
        exact hperm.length_eq
      have hle : ((bulkLoop (create_download_directory request.date)
          request.date fileExists outcome completionOrder).1.filter
            (fun r => r.success)).length ≤ courts.length := by
        calc _ ≤ (bulkLoop (create_download_directory request.date)
              request.date fileExists outcome completionOrder).1.length :=
                List.length_filter_le _ _
          _ = courts.length := hlen
      refine ⟨by omega, rfl, hlen⟩
  · intro request courts completionOrder outcome fileExists zipWritten hv
    exact bulk_invalid_code request courts completionOrder outcome
      fileExists zipWritten hv

/-- Witness for C2 amended: the counting invariant at a concrete valid
run with two units (one success, one failure), and the all-zero abort at
a concrete run with a blank discovered code. -/
theorem c2_witness :
    ((download_bulk_cause_lists ⟨"S1", "D1", "CPX", "2024-01-05"⟩
        [⟨"101", "Court A"⟩, ⟨"102", "Court B"⟩]
        [⟨"102", "Court B"⟩, ⟨"101", "Court A"⟩]
        (fun c => if c.code = "101" then .ok ⟨true, "a.pdf", 9, "/downloads/2024-01-05/a.pdf", none⟩ else .ok ⟨false, "failed_download.pdf", 0, "/static/downloads/not_available.pdf", some "no list"⟩)
        (fun _ => true) (.ok (true, 50))).successful_downloads +
      (download_bulk_cause_lists ⟨"S1", "D1", "CPX", "2024-01-05"⟩
        [⟨"101", "Court A"⟩, ⟨"102", "Court B"⟩]
        [⟨"102", "Court B"⟩, ⟨"101", "Court A"⟩]
        (fun c => if c.code = "101" then .ok ⟨true, "a.pdf", 9, "/downloads/2024-01-05/a.pdf", none⟩ else .ok ⟨false, "failed_download.pdf", 0, "/static/downloads/not_available.pdf", some "no list"⟩)
        (fun _ => true) (.ok (true, 50))).failed_downloads =
      (download_bulk_cause_lists ⟨"S1", "D1", "CPX", "2024-01-05"⟩
        [⟨"101", "Court A"⟩, ⟨"102", "Court B"⟩]
        [⟨"102", "Court B"⟩, ⟨"101", "Court A"⟩]
        (fun c => if c.code = "101" then .ok ⟨true, "a.pdf", 9, "/downloads/2024-01-05/a.pdf", none⟩ else .ok ⟨false, "failed_download.pdf", 0, "/static/downloads/not_available.pdf", some "no list"⟩)
        (fun _ => true) (.ok (true, 50))).total_files) ∧
    download_bulk_cause_lists ⟨"S1", "D1", "CPX", "2024-01-05"⟩
        [⟨" ", "Blank Court"⟩] [⟨" ", "Blank Court"⟩]
        (fun _ => .ok ⟨true, "a.pdf", 9, "/downloads/2024-01-05/a.pdf", none⟩)
        (fun _ => true) (.ok (true, 50)) =
      { success := false, total_files := 0, successful_downloads := 0, failed_downloads := 0, download_results := [], zip_filename := none, zip_download_url := none } := by
  constructor
  · exact (c2_count_invariant.1 ⟨"S1", "D1", "CPX", "2024-01-05"⟩
      [⟨"101", "Court A"⟩, ⟨"102", "Court B"⟩]
      [⟨"102", "Court B"⟩, ⟨"101", "Court A"⟩]
      (fun c => if c.code = "101" then .ok ⟨true, "a.pdf", 9, "/downloads/2024-01-05/a.pdf", none⟩ else .ok ⟨false, "failed_download.pdf", 0, "/static/downloads/not_available.pdf", some "no list"⟩)
      (fun _ => true) (.ok (true, 50)) (by decide) (by decide)).1
  · exact c2_count_invariant.2 ⟨"S1", "D1", "CPX", "2024-01-05"⟩
      [⟨" ", "Blank Court"⟩] [⟨" ", "Blank Court"⟩]
      (fun _ => .ok ⟨true, "a.pdf", 9, "/downloads/2024-01-05/a.pdf", none⟩)
      (fun _ => true) (.ok (true, 50)) (by decide)

/-! ### C3: at-least-one-file success semantics -/

/-- C3: for a completed bulk run over a non-empty work set, the overall
success flag is true exactly when at least one download succeeded, so a
partially failed run is still reported successful. -/
theorem c3_success_iff (request : BulkDownloadRequest)
    (courts completionOrder : List Court)
    (outcome : Court → Except String DownloadResult)
    (fileExists : String → Bool) (zipWritten : Except String (Bool × Nat))
    (hne : courts ≠ []) :
    ((download_bulk_cause_lists request courts completionOrder outcome
        fileExists zipWritten).success = true ↔
      0 < (download_bulk_cause_lists request courts completionOrder outcome
        fileExists zipWritten).successful_downloads) := by
  have hcf : courts.isEmpty = false := by
    simpa [List.isEmpty_iff] using hne
  by_cases hv : courts.any (fun c => !(courtCodeValid c))
  · rw [bulk_invalid_code request courts completionOrder outcome fileExists
      zipWritten hv]
    simp
  · rw [bulk_not_empty request courts completionOrder outcome fileExists
      zipWritten hcf (by simpa using hv)]
    simp

/-- Witness for C3: five units, two succeed and three fail; the run is
reported successful. -/
theorem c3_witness :
    ((download_bulk_cause_lists ⟨"S1", "D1", "CPX", "2024-01-05"⟩
        [⟨"1", "A"⟩, ⟨"2", "B"⟩, ⟨"3", "C"⟩, ⟨"4", "D"⟩, ⟨"5", "E"⟩]
        [⟨"1", "A"⟩, ⟨"2", "B"⟩, ⟨"3", "C"⟩, ⟨"4", "D"⟩, ⟨"5", "E"⟩]
        (fun c => if c.code = "1" ∨ c.code = "2" then .ok ⟨true, "a.pdf", 9, "/downloads/2024-01-05/a.pdf", none⟩ else .ok ⟨false, "failed_download.pdf", 0, "/static/downloads/not_available.pdf", some "no list"⟩)
        (fun _ => true) (.ok (true, 50))).success = true ↔
      0 < (download_bulk_cause_lists ⟨"S1", "D1", "CPX", "2024-01-05"⟩
        [⟨"1", "A"⟩, ⟨"2", "B"⟩, ⟨"3", "C"⟩, ⟨"4", "D"⟩, ⟨"5", "E"⟩]
        [⟨"1", "A"⟩, ⟨"2", "B"⟩, ⟨"3", "C"⟩, ⟨"4", "D"⟩, ⟨"5", "E"⟩]
        (fun c => if c.code = "1" ∨ c.code = "2" then .ok ⟨true, "a.pdf", 9, "/downloads/2024-01-05/a.pdf", none⟩ else .ok ⟨false, "failed_download.pdf", 0, "/static/downloads/not_available.pdf", some "no list"⟩)
        (fun _ => true) (.ok (true, 50))).successful_downloads) := by
  exact c3_success_iff ⟨"S1", "D1", "CPX", "2024-01-05"⟩
    [⟨"1", "A"⟩, ⟨"2", "B"⟩, ⟨"3", "C"⟩, ⟨"4", "D"⟩, ⟨"5", "E"⟩]
    [⟨"1", "A"⟩, ⟨"2", "B"⟩, ⟨"3", "C"⟩, ⟨"4", "D"⟩, ⟨"5", "E"⟩]
    (fun c => if c.code = "1" ∨ c.code = "2" then .ok ⟨true, "a.pdf", 9, "/downloads/2024-01-05/a.pdf", none⟩ else .ok ⟨false, "failed_download.pdf", 0, "/static/downloads/not_available.pdf", some "no list"⟩)
    (fun _ => true) (.ok (true, 50)) (by decide)

/-! ### C4: empty work set -/

/-- C4: when work-set discovery yields zero units the orchestrator
returns the all-zero failed result immediately, with an empty result
list, both zip fields unset and no archive creation attempted. -/
theorem c4_empty_workset (request : BulkDownloadRequest)
    (completionOrder : List Court)
    (outcome : Court → Except String DownloadResult)
    (fileExists : String → Bool) (zipWritten : Except String (Bool × Nat)) :
    download_bulk_cause_lists request [] completionOrder outcome
        fileExists zipWritten =
      { success := false, total_files := 0, successful_downloads := 0, failed_downloads := 0, download_results := [], zip_filename := none, zip_download_url := none } ∧
    bulkArchiveAttempted request [] completionOrder outcome fileExists =
      false := by
  constructor <;> rfl

/-! ### C7: archive attempt condition and archive builder guarantee -/

/-- C7 counterexample: a run with one successful download whose file does
not exist at collection time has successful_downloads positive, yet no
archive creation is attempted and the zip fields stay unset — refuting
that archive creation is attempted if and only if successful_downloads
is positive. -/
theorem c7_counterexample :
    0 < (download_bulk_cause_lists ⟨"S1", "D1", "CPX", "2024-01-05"⟩
        [⟨"101", "Court A"⟩] [⟨"101", "Court A"⟩]
        (fun _ => .ok ⟨true, "a.pdf", 9, "/downloads/2024-01-05/a.pdf", none⟩)
        (fun _ => false) (.ok (true, 50))).successful_downloads ∧
    bulkArchiveAttempted ⟨"S1", "D1", "CPX", "2024-01-05"⟩
        [⟨"101", "Court A"⟩] [⟨"101", "Court A"⟩]
        (fun _ => .ok ⟨true, "a.pdf", 9, "/downloads/2024-01-05/a.pdf", none⟩)
        (fun _ => false) = false ∧
    (download_bulk_cause_lists ⟨"S1", "D1", "CPX", "2024-01-05"⟩
        [⟨"101", "Court A"⟩] [⟨"101", "Court A"⟩]
        (fun _ => .ok ⟨true, "a.pdf", 9, "/downloads/2024-01-05/a.pdf", none⟩)
        (fun _ => false) (.ok (true, 50))).zip_filename = none ∧
    (download_bulk_cause_lists ⟨"S1", "D1", "CPX", "2024-01-05"⟩
        [⟨"101", "Court A"⟩] [⟨"101", "Court A"⟩]
        (fun _ => .ok ⟨true, "a.pdf", 9, "/downloads/2024-01-05/a.pdf", none⟩)
        (fun _ => false) (.ok (true, 50))).zip_download_url = none := by
  decide

/-- C7 amended: archive creation is attempted exactly when some
successful download has its file present at collection time; an attempt
implies successful_downloads is positive (but not conversely); the
archive builder returns a location only when the written archive exists
and is non-empty; when no attempt happens both zip fields are unset; and
the overall success flag is determined solely by successful_downloads
being positive. -/
theorem c7_archive_amended :
    (∀ (request : BulkDownloadRequest) (courts completionOrder : List Court)
      (outcome : Court → Except String DownloadResult)
      (fileExists : String → Bool) (zipWritten : Except String (Bool × Nat)),
      bulkArchiveAttempted request courts completionOrder outcome fileExists = true →
      0 < (download_bulk_cause_lists request courts completionOrder outcome
        fileExists zipWritten).successful_downloads) ∧
    (∀ (zipWritten : Except String (Bool × Nat)) (paths : List String)
      (name dir p : String),
      create_zip_archive zipWritten paths name dir = some p →
      (∃ zsize : Nat, zipWritten = .ok (true, zsize) ∧ 0 < zsize) ∧
      p = dir ++ "/" ++ name) ∧
    (∀ (request : BulkDownloadRequest) (courts completionOrder : List Court)
      (outcome : Court → Except String DownloadResult)
      (fileExists : String → Bool) (zipWritten : Except String (Bool × Nat)),
      bulkArchiveAttempted request courts completionOrder outcome fileExists = false →
      (download_bulk_cause_lists request courts completionOrder outcome
        fileExists zipWritten).zip_filename = none ∧
      (download_bulk_cause_lists request courts completionOrder outcome
        fileExists zipWritten).zip_download_url = none) ∧
    (∀ (request : BulkDownloadRequest) (courts completionOrder : List Court)
      (outcome : Court → Except String DownloadResult)
      (fileExists : String → Bool) (zipWritten : Except String (Bool × Nat)),
      ((download_bulk_cause_lists request courts completionOrder outcome
          fileExists zipWritten).success = true ↔
        0 < (download_bulk_cause_lists request courts completionOrder outcome
          fileExists zipWritten).successful_downloads)) := by
  refine ⟨?_, ?_, ?_, ?_⟩
  · intro request courts completionOrder outcome fileExists zipWritten hatt
    unfold bulkArchiveAttempted at hatt
    by_cases hc : courts.isEmpty
    · rw [if_pos hc] at hatt
      exact absurd hatt (by simp)
    · have hcf : courts.isEmpty = false := by simpa using hc
      rw [if_neg hc] at hatt
      by_cases hv : courts.any (fun c => !(courtCodeValid c))
      · rw [if_pos hv] at hatt
        exact absurd hatt (by simp)
      · rw [if_neg hv, Bool.not_eq_true'] at hatt
        rw [bulk_not_empty request courts completionOrder outcome fileExists
          zipWritten hcf (by simpa using hv)]
        dsimp only
        exact bulkLoop_files_success _ _ _ _ _
          (by simpa [List.isEmpty_iff] using hatt)
  · intro zipWritten paths name dir p h
    unfold create_zip_archive at h
    by_cases hp : paths.isEmpty
    · rw [if_pos hp] at h
      cases h
    · rw [if_neg hp] at h
      cases zipWritten with
      | error e => cases h
      | ok pair =>
        obtain ⟨ze, zs⟩ := pair
        dsimp only at h
        split at h
        · next hz =>
          simp only [Bool.and_eq_true] at hz
          have hze : ze = true := hz.1
          have hzs : 0 < zs := by simpa using hz.2
          injection h with h2
          exact ⟨⟨zs, by rw [hze], hzs⟩, h2.symm⟩
        · next hz => cases h
  · intro request courts completionOrder outcome fileExists zipWritten hatt
    unfold bulkArchiveAttempted at hatt
    by_cases hc : courts.isEmpty
    · have hnil : courts = [] := List.isEmpty_iff.mp hc
      subst hnil
      simp [download_bulk_cause_lists]
    · have hcf : courts.isEmpty = false := by simpa using hc
      rw [if_neg hc] at hatt
      by_cases hv : courts.any (fun c => !(courtCodeValid c))
      · rw [bulk_invalid_code request courts completionOrder outcome
          fileExists zipWritten hv]
        exact ⟨rfl, rfl⟩
      · rw [if_neg hv] at hatt
        have hfe : (bulkLoop (create_download_directory request.date)
            request.date fileExists outcome completionOrder).2.isEmpty = true := by
          simpa using hatt
        rw [bulk_not_empty request courts completionOrder outcome fileExists
          zipWritten hcf (by simpa using hv)]
        simp [hfe]
  · intro request courts completionOrder outcome fileExists zipWritten
    by_cases hc : courts.isEmpty
    · have hnil : courts = [] := List.isEmpty_iff.mp hc
      subst hnil
      simp [download_bulk_cause_lists]
    · have hcf : courts.isEmpty = false := by simpa using hc
      by_cases hv : courts.any (fun c => !(courtCodeValid c))
      · rw [bulk_invalid_code request courts completionOrder outcome
          fileExists zipWritten hv]
        simp
      · rw [bulk_not_empty request courts completionOrder outcome fileExists
          zipWritten hcf (by simpa using hv)]
        simp

/-- Witness for C7 amended: a concrete attempted archive implies a
positive success count. -/
theorem c7_witness :
    0 < (download_bulk_cause_lists ⟨"S1", "D1", "CPX", "2024-01-05"⟩
        [⟨"101", "Court A"⟩] [⟨"101", "Court A"⟩]
        (fun _ => .ok ⟨true, "a.pdf", 9, "/downloads/2024-01-05/a.pdf", none⟩)
        (fun _ => true) (.ok (true, 50))).successful_downloads :=
  c7_archive_amended.1 ⟨"S1", "D1", "CPX", "2024-01-05"⟩
    [⟨"101", "Court A"⟩] [⟨"101", "Court A"⟩]
    (fun _ => .ok ⟨true, "a.pdf", 9, "/downloads/2024-01-05/a.pdf", none⟩)
    (fun _ => true) (.ok (true, 50)) (by decide)

/-! ### C8: zero-total progress tracker -/

/-- C8 counterexample: on a tracker constructed with total 0, an update
raises ZeroDivisionError at the percent computation instead of producing
the value 100, refuting that no update can fail with a division error
(the zero-total tracker is nonetheless immediately complete). -/
theorem c8_counterexample :
    update_progress (mkProgressTracker 0) "item" true =
      .error "ZeroDivisionError" ∧
    (mkProgressTracker 0).is_complete = true := by
  exact ⟨rfl, rfl⟩

/-- C8 amended: a tracker with total 0 is immediately complete, but
update_progress divides completed by total with no zero guard: on a
zero-total tracker every update raises ZeroDivisionError, and on a
positive-total tracker every update succeeds with percent equal to
completed divided by total times 100. -/
theorem c8_update_amended :
    (mkProgressTracker 0).is_complete = true ∧
    (∀ (t : ProgressTracker) (item_name : String) (success : Bool),
      t.total_items = 0 →
      update_progress t item_name success = .error "ZeroDivisionError") ∧
    (∀ (t : ProgressTracker) (item_name : String) (success : Bool),
      0 < t.total_items →
      update_progress t item_name success = .ok
        ({ t with completed_items := t.completed_items + 1, current_item := some item_name, successful_items := t.successful_items + (if success then 1 else 0), failed_items := t.failed_items + (if success then 0 else 1) },
          (((t.completed_items : ℚ) + 1) / (t.total_items : ℚ)) * 100)) := by
  refine ⟨rfl, ?_, ?_⟩
  · intro t item_name success h
    simp [update_progress, h]
  · intro t item_name success h
    have h0 : ¬ t.total_items = 0 := by omega
    simp only [update_progress, if_neg h0]
    push_cast
    ring_nf

/-- Witness for C8 amended at concrete trackers: total 0 raises; total 2
with one completion reports 100 percent. -/
theorem c8_witness :
    update_progress (mkProgressTracker 0) "alpha" true =
      .error "ZeroDivisionError" ∧
    update_progress (mkProgressTracker 2) "alpha" false =
      .ok ({ total_items := 2, completed_items := 1, successful_items := 0, failed_items := 1, current_item := some "alpha" }, (1 / 2 : ℚ) * 100) := by
  constructor
  · exact c8_update_amended.2.1 (mkProgressTracker 0) "alpha" true rfl
  · have h := c8_update_amended.2.2 (mkProgressTracker 2) "alpha" false
      (by decide)
    rw [h]
    norm_num [mkProgressTracker]

/-! ### C5: stability of terminal session status -/

/-- The session used in the C5 counterexample: already completed. -/
def c5session : Session :=
  { status := .completed, start_time := 0, terminal_time := some 0, results := none, error_str := none }

/-- The registry used in the C5 counterexample. -/
def c5state : MgrState :=
  fun x => if x = "job-5" then some c5session else none

/-- C5 counterexample: a session whose status is the terminal tag
completed is changed to cancelled by a subsequent cancel_download call,
refuting that no operation changes the status of a terminal session. -/
theorem c5_counterexample :
    (c5state "job-5").map Session.status = some .completed ∧
    SessionStatus.isTerminal .completed = true ∧
    (cancel_download c5state "job-5" 1).2 = true ∧
    ((cancel_download c5state "job-5" 1).1 "job-5").map Session.status =
      some .cancelled := by
  decide

/-- C5 amended: the status writes of the manager are unconditional, so a
terminal status is protected only from the operations that do not write
the status of that session: under any operation other than cancel, the
background-job writes (running, completed, error) and a start reusing
the same id, a session in a terminal state either keeps its exact entry
or is removed (by cleanup); no such operation rewrites its status tag. -/
theorem c5_terminal_stability (m : MgrState) (id : String) (s : Session)
    (op : MgrOp) (hm : m id = some s)
    (_hterm : s.status.isTerminal = true)
    (hop : op.writesStatus id = false) :
    applyOp m op id = none ∨ applyOp m op id = some s := by
  cases op with
  | start i t =>
    have hne : ¬ id = i := by
      intro h
      subst h
      simp [MgrOp.writesStatus] at hop
    right
    simp [applyOp, start_bulk_download, hne, hm]
  | jobRun i =>
    have hne : ¬ id = i := by
      intro h
      subst h
      simp [MgrOp.writesStatus] at hop
    right
    simp [applyOp, jobRunWrite, setSession, hne, hm]
  | jobComplete i r t =>
    have hne : ¬ id = i := by
      intro h
      subst h
      simp [MgrOp.writesStatus] at hop
    right
    simp [applyOp, jobCompleteWrite, setSession, hne, hm]
  | jobError i e t =>
    have hne : ¬ id = i := by
      intro h
      subst h
      simp [MgrOp.writesStatus] at hop
    right
    simp [applyOp, jobErrorWrite, setSession, hne, hm]
  | cancel i t =>
    have hne : ¬ id = i := by
      intro h
      subst h
      simp [MgrOp.writesStatus] at hop
    right
    simp only [applyOp]
    unfold cancel_download
    by_cases hs : (m i).isSome
    · rw [if_pos hs]
      simp [setSession, hne, hm]
    · rw [if_neg hs]
      exact hm
  | cleanup a now =>
    simp only [applyOp, cleanup_completed_sessions, hm]
    by_cases hcond : s.status.isTerminal ∧ s.start_time < now - a
    · left
      rw [if_pos hcond]
    · right
      rw [if_neg hcond]
  | getStatus i =>
    right
    exact hm
  | listActive =>
    right
    exact hm

/-- Witness for C5 amended: cleanup within the retention window leaves a
completed session entry untouched. -/
theorem c5_witness :
    applyOp (fun x => if x = "job-5w" then some ⟨.completed, 3, some 3, none, none⟩ else none) (.cleanup 24 4) "job-5w" = none ∨
    applyOp (fun x => if x = "job-5w" then some ⟨.completed, 3, some 3, none, none⟩ else none) (.cleanup 24 4) "job-5w" =
      some ⟨.completed, 3, some 3, none, none⟩ :=
  c5_terminal_stability _ "job-5w" ⟨.completed, 3, some 3, none, none⟩
    (.cleanup 24 4) (by decide) (by decide) (by decide)

/-! ### C6: cancellation does not prevent completed -/

/-- The registry used in the C6 counterexample: one running session. -/
def c6state : MgrState :=
  fun x => if x = "job-6" then some ⟨.running, 0, none, none, none⟩ else none

/-- The bulk result stored by the background job in the C6
counterexample. -/
def c6result : BulkDownloadResult :=
  { success := true, total_files := 1, successful_downloads := 1, failed_downloads := 0, download_results := [⟨true, "a.pdf", 9, "/downloads/2024-01-05/a.pdf", none⟩], zip_filename := none, zip_download_url := none }

/-- C6 counterexample: cancel succeeds on a running session (status
becomes cancelled), yet when the background job then finishes its
unconditional completion write makes the same session report completed —
refuting that a cancelled session never subsequently reports
completed. -/
theorem c6_counterexample :
    (c6state "job-6").map Session.status = some .running ∧
    (cancel_download c6state "job-6" 5).2 = true ∧
    (((cancel_download c6state "job-6" 5).1) "job-6").map Session.status =
      some .cancelled ∧
    ((jobCompleteWrite ((cancel_download c6state "job-6" 5).1) "job-6"
        c6result 6) "job-6").map Session.status = some .completed := by
  decide

/-- C6 amended: cancellation is advisory only and does not prevent the
session from reporting completed: cancel on a present session returns
true and sets the status to cancelled, but the completion write of the
background job afterwards sets the status of the same session to
completed. -/
theorem c6_cancel_amended (m : MgrState) (id : String) (s : Session)
    (t t2 : Int) (r : BulkDownloadResult) (hm : m id = some s) :
    (cancel_download m id t).2 = true ∧
    (((cancel_download m id t).1) id).map Session.status =
      some .cancelled ∧
    ((jobCompleteWrite ((cancel_download m id t).1) id r t2) id).map
        Session.status = some .completed := by
  have hs : (m id).isSome := by rw [hm]; rfl
  unfold cancel_download
  rw [if_pos hs]
  refine ⟨rfl, ?_, ?_⟩
  · simp [setSession, hm]
  · simp [jobCompleteWrite, setSession, hm]

/-- Witness for C6 amended at a concrete running session. -/
theorem c6_witness :
    (cancel_download (fun x => if x = "job-6w" then some ⟨.running, 0, none, none, none⟩ else none) "job-6w" 5).2 = true ∧
    (((cancel_download (fun x => if x = "job-6w" then some ⟨.running, 0, none, none, none⟩ else none) "job-6w" 5).1) "job-6w").map Session.status = some .cancelled ∧
    ((jobCompleteWrite ((cancel_download (fun x => if x = "job-6w" then some ⟨.running, 0, none, none, none⟩ else none) "job-6w" 5).1) "job-6w" c6result 6) "job-6w").map Session.status = some .completed :=
  c6_cancel_amended _ "job-6w" ⟨.running, 0, none, none, none⟩ 5 6 c6result
    (by decide)

/-! ### C9: cleanup retention window -/

/-- The session of the C9 counterexample: it entered its terminal state
at time 10 (ghost terminal_time) but was started at time 0. -/
def c9session : Session :=
  { status := .completed, start_time := 0, terminal_time := some 10, results := none, error_str := none }

/-- The registry of the C9 counterexample. -/
def c9state : MgrState :=
  fun x => if x = "job-9" then some c9session else none

/-- C9 counterexample: with retention window 5 at time 10, cleanup
removes a completed session that entered its terminal state at time 10 —
its terminal-state age 0 does not exceed the window, refuting that
exactly the sessions whose terminal-state age exceeds max_age are
removed (the code compares the session start time instead). -/
theorem c9_counterexample :
    (c9state "job-9").map Session.status = some .completed ∧
    (c9state "job-9").map Session.terminal_time = some (some 10) ∧
    ¬ ((10 : Int) - 10 > 5) ∧
    cleanup_completed_sessions c9state 5 10 "job-9" = none := by
  decide

/-- C9 amended: cleanup removes exactly the sessions whose status is
terminal and whose age measured from the session start time (not from
entering the terminal state) exceeds the retention window: a present
session is removed when its status is terminal and start_time lies
before now minus max_age_hours, and kept unchanged otherwise; in
particular non-terminal sessions are never removed and with max_age 0
every terminal session started before now is removed. -/
theorem c9_cleanup_characterization (m : MgrState)
    (max_age_hours now : Int) (id : String) (s : Session)
    (hm : m id = some s) :
    cleanup_completed_sessions m max_age_hours now id =
      (if s.status.isTerminal ∧ s.start_time < now - max_age_hours then none
       else some s) := by
  simp only [cleanup_completed_sessions, hm]

/-- Witness for C9 amended: a running session survives cleanup with
window 0 while a completed one started earlier is removed. -/
theorem c9_witness :
    cleanup_completed_sessions
        (fun x => if x = "job-9w" then some ⟨.running, 0, none, none, none⟩ else none) 0 10 "job-9w" =
      (if SessionStatus.isTerminal .running ∧ (0 : Int) < 10 - 0 then none
       else some ⟨.running, 0, none, none, none⟩) :=
  c9_cleanup_characterization _ 0 10 "job-9w" ⟨.running, 0, none, none, none⟩
    (by decide)

/-! ### C10: the single download is total and failure results carry their
fields -/

theorem create_basic_mock_pdf_ok_or_msg (env : ScraperEnv)
    (fp fn : String) :
    (create_basic_mock_pdf env fp fn).success = true ∨
    (create_basic_mock_pdf env fp fn).error_message.isSome = true := by
  unfold create_basic_mock_pdf
  cases env.basic_exc with
  | some e => right; rfl
  | none => left; rfl

theorem create_mock_pdf_ok_or_msg (env : ScraperEnv) (fp fn : String) :
    (create_mock_pdf env fp fn).success = true ∨
    (create_mock_pdf env fp fn).error_message.isSome = true := by
  unfold create_mock_pdf
  cases env.mock_exc with
  | some e => right; rfl
  | none =>
    dsimp only
    by_cases hg : env.pdf_generator_available
    · rw [if_pos hg]
      cases env.mock_pdf with
      | ok fp2 n => left; rfl
      | fail m => right; rfl
    · rw [if_neg hg]
      exact create_basic_mock_pdf_ok_or_msg env fp fn

theorem download_cause_list_ok_or_msg (env : ScraperEnv)
    (url fn dir : String) :
    (download_cause_list env url fn dir).success = true ∨
    (download_cause_list env url fn dir).error_message.isSome = true := by
  unfold download_cause_list
  cases env.dl_exc with
  | some e => right; rfl
  | none =>
    dsimp only
    split
    · right; rfl
    · split
      · right; rfl
      · cases env.response with
        | none =>
          dsimp only
          split
          · exact create_mock_pdf_ok_or_msg env _ _
          · right; rfl
        | some resp =>
          dsimp only
          split
          · split
            · exact create_mock_pdf_ok_or_msg env _ _
            · right; rfl
          · split
            · left; rfl
            · right; rfl

theorem by_court_and_date_ok_or_msg (env : ScraperEnv)
    (court_code : Option String) (date : String)
    (court_name : Option String) :
    (download_cause_list_by_court_and_date env court_code date
        court_name).success = true ∨
    (download_cause_list_by_court_and_date env court_code date
        court_name).error_message.isSome = true := by
  unfold download_cause_list_by_court_and_date
  cases env.top_exc with
  | some e =>
    dsimp only
    split
    · cases env.top_mock_exc with
      | some me => right; rfl
      | none => exact create_mock_pdf_ok_or_msg env _ _
    · right; rfl
  | none =>
    dsimp only
    split
    · split
      · exact create_mock_pdf_ok_or_msg env _ _
      · right; rfl
    · exact download_cause_list_ok_or_msg env _ _ _

/-- Every failed result dictionary that the embedded scraper entry point
returns carries an error message. -/
theorem scraper_failure_has_message (env : ScraperEnv)
    (court_code : Option String) (date : String)
    (court_name : Option String)
    (h : (download_cause_list_by_court_and_date env court_code date
        court_name).success = false) :
    (download_cause_list_by_court_and_date env court_code date
        court_name).error_message.isSome = true := by
  rcases by_court_and_date_ok_or_msg env court_code date court_name with
    hs | hmsg
  · rw [h] at hs
    cases hs
  · exact hmsg

/-- C10: download_single_cause_list is total at its boundary (in the
embedding every exception point is a caught parameter, so the function
returns a DownloadResult on every input), and every failed result has a
non-empty filename, a non-empty download_url, file_size zero and an
error message present. -/
theorem c10_failure_result_fields (request : DownloadRequest)
    (env : ScraperEnv) (fsMove : Except String Unit)
    (h : (download_single_cause_list request env fsMove).success = false) :
    (download_single_cause_list request env fsMove).filename ≠ "" ∧
    (download_single_cause_list request env fsMove).download_url ≠ "" ∧
    (download_single_cause_list request env fsMove).file_size = 0 ∧
    (download_single_cause_list request env fsMove).error_message.isSome =
      true := by
  unfold download_single_cause_list at h ⊢
  dsimp only at h ⊢
  by_cases hdr : (download_cause_list_by_court_and_date env
      request.court_code request.date
      (some ("Court_" ++ pyStr request.court_code))).success
  · rw [if_pos hdr] at h ⊢
    cases fsMove with
    | ok u => simp at h
    | error e =>
      refine ⟨?_, by dsimp only; decide, rfl, rfl⟩
      show ("error_" ++ env.now_stamp ++ ".pdf") ≠ ""
      exact append_ne_empty_left _ ".pdf"
        (append_ne_empty_left "error_" env.now_stamp (by decide))
  · rw [if_neg hdr] at h ⊢
    have hfalse : (download_cause_list_by_court_and_date env
        request.court_code request.date
        (some ("Court_" ++ pyStr request.court_code))).success = false := by
      simpa using hdr
    refine ⟨?_, by dsimp only; decide, rfl, ?_⟩
    · by_cases hf : pyTruthyStr (generate_filename
          ("Court_" ++ pyStr request.court_code) request.date
          request.court_code) &&
        pyTruthyStr (strTrim (generate_filename
          ("Court_" ++ pyStr request.court_code) request.date
          request.court_code))
      · rw [if_pos hf]
        simp only [Bool.and_eq_true, pyTruthyStr, decide_eq_true_eq] at hf
        exact hf.1
      · rw [if_neg hf]
        dsimp only
        decide
    · exact scraper_failure_has_message env request.court_code request.date
        (some ("Court_" ++ pyStr request.court_code)) hfalse

/-- The request of the C10 witness. -/
def c10request : DownloadRequest :=
  { state_code := "S1", district_code := "D1", complex_code := "CPX", court_code := some "101", date := "2024-01-05" }

/-- The environment of the C10 witness: mock mode off and no cause-list
URL obtainable, so the scraper reports a failure dictionary. -/
def c10env : ScraperEnv :=
  { mock_mode := false, pdf_url := none, response := none, written_ok := false, written_size := 0, pdf_generator_available := false, mock_pdf := .fail "unused", mock_exc := none, basic_exc := none, basic_size := 0, dl_exc := none, top_exc := none, top_mock_exc := none, now_date := "2024_01_05", now_stamp := "20240105_120000" }

/-- Witness for C10 at a concrete failing download. -/
theorem c10_witness :
    (download_single_cause_list c10request c10env (.ok ())).filename ≠ "" ∧
    (download_single_cause_list c10request c10env (.ok ())).download_url ≠ "" ∧
    (download_single_cause_list c10request c10env (.ok ())).file_size = 0 ∧
    (download_single_cause_list c10request c10env (.ok ())).error_message.isSome = true :=
  c10_failure_result_fields c10request c10env (.ok ()) (by decide)

end ECourts
